import Mathlib

/-!
Shallow embedding of `src/components/Tooltip.tsx` (react-native-paper fork).

The component is a React class component.  Its logical core is:
  * pure placement geometry (`_overflowLeft`, `_overflowRight`,
    `_overflowBottom`, `_getTooltipXPosition`, `_getTooltipYPosition`),
  * a touch-driven visibility state machine built on `setTimeout` /
    `clearTimeout` (`_handleTouchStart`, `_handleTouchEndCapture`,
    `_handleTouchCancel`, `componentWillUnmount`, `_setChildrenPosition`),
  * a one-shot tooltip measurement handler (`_handleTooltipLayout`),
  * prop forwarding to the wrapped child via
    `React.cloneElement(child, \x7b onLongPress: () => \x7b\x7d, ...rest, ref \x7d)`.

JavaScript numbers are modelled as rationals (`ℚ`); all arithmetic in the
source is addition, subtraction and division by 2, which is exact.  Leading
underscores of source names are dropped (Lean identifiers).
-/

namespace TooltipModel

/-- Mirror of the `childrenLayout` part of the component state: the child's
absolute on-screen rectangle `(x, y, width, height)`. -/
structure ChildrenLayout where
  x : ℚ
  y : ℚ
  width : ℚ
  height : ℚ
  deriving Repr, DecidableEq

/-- Mirror of the `tooltipLayout` part of the component state: the tooltip's
rendered size. -/
structure TooltipLayout where
  width : ℚ
  height : ℚ
  deriving Repr, DecidableEq

/-- Mirror of `styles.tooltip.marginTop` (source line 317). -/
def tooltipMarginTop : ℚ := 24

/-- Source `_overflowLeft(centerDistanceFromChildren)`:
`centerDistanceFromChildren < 0`. -/
def overflowLeft (centerDistanceFromChildren : ℚ) : Bool :=
  decide (centerDistanceFromChildren < 0)

/-- Source `_overflowRight(centerDistanceFromChildren)`:
`centerDistanceFromChildren + tooltipWidth > layoutWidth`, where
`tooltipWidth` comes from state and `layoutWidth` from
`Dimensions.get('window')`; both are explicit parameters here. -/
def overflowRight (tooltipWidth layoutWidth centerDistanceFromChildren : ℚ) : Bool :=
  decide (centerDistanceFromChildren + tooltipWidth > layoutWidth)

/-- Source `_overflowBottom()`:
`childrenY + childrenHeight + tooltipHeight + APPROX_STATUSBAR_HEIGHT > layoutHeight`.
`APPROX_STATUSBAR_HEIGHT` is imported from `../constants` (not under `src/`),
so it is an explicit parameter `statusBarHeight`. -/
def overflowBottom (childrenY childrenHeight tooltipHeight statusBarHeight layoutHeight : ℚ) :
    Bool :=
  decide (childrenY + childrenHeight + tooltipHeight + statusBarHeight > layoutHeight)

/-- Source `_getTooltipXPosition()`; `layoutWidth` is the window width. -/
def getTooltipXPosition (children : ChildrenLayout) (tooltip : TooltipLayout)
    (layoutWidth : ℚ) : ℚ :=
  let centerDistanceFromChildren := children.x + (children.width - tooltip.width) / 2
  if overflowRight tooltip.width layoutWidth centerDistanceFromChildren then
    children.x + children.width - tooltip.width
  else if overflowLeft centerDistanceFromChildren then
    children.x
  else
    centerDistanceFromChildren

/-- Source `_getTooltipYPosition()`; `statusBarHeight` stands for
`APPROX_STATUSBAR_HEIGHT`, `layoutHeight` for the window height. -/
def getTooltipYPosition (children : ChildrenLayout) (tooltip : TooltipLayout)
    (statusBarHeight layoutHeight : ℚ) : ℚ :=
  if overflowBottom children.y children.height tooltip.height statusBarHeight layoutHeight then
    children.y - tooltip.height - tooltipMarginTop - statusBarHeight
  else
    children.y + tooltip.height

theorem overflowRight_eq_true_iff (tw lw c : ℚ) :
    overflowRight tw lw c = true ↔ lw < c + tw := by
  simp [overflowRight]

theorem overflowRight_eq_false_iff (tw lw c : ℚ) :
    overflowRight tw lw c = false ↔ c + tw ≤ lw := by
  simp [overflowRight]

theorem overflowLeft_eq_true_iff (c : ℚ) : overflowLeft c = true ↔ c < 0 := by
  simp [overflowLeft]

theorem overflowLeft_eq_false_iff (c : ℚ) : overflowLeft c = false ↔ 0 ≤ c := by
  simp [overflowLeft]

theorem overflowBottom_eq_false_iff (cy ch th sb lh : ℚ) :
    overflowBottom cy ch th sb lh = false ↔ cy + ch + th + sb ≤ lh := by
  simp [overflowBottom]

theorem overflowBottom_eq_true_iff (cy ch th sb lh : ℚ) :
    overflowBottom cy ch th sb lh = true ↔ lh < cy + ch + th + sb := by
  simp [overflowBottom]

/-! ### Prop forwarding to the wrapped child (source `render`, lines 270-307)

`render` destructures
`const \x7b children, title, wrapperStyle, style, theme, ...rest \x7d = this.props`
and renders
`React.cloneElement(childElement, \x7b onLongPress: () => \x7b\x7d, ...rest, ref: this._setChildrenRef \x7d)`.
Prop bags are modelled as finite partial maps from string keys to opaque
property values; a JavaScript object literal assigns keys left to right, a
later key overriding an earlier one, and `React.cloneElement` merges the
config over the element's original props (config keys win). -/

/-- A property value seen by the child: the no-op function literal
`() => \x7b\x7d`, some consumer-supplied value (indexed by a number), or the
`ref` callback `this._setChildrenRef`. -/
inductive PropVal where
  | noopFn : PropVal
  | fn : ℕ → PropVal
  | refCallback : PropVal
  deriving Repr, DecidableEq

/-- A JavaScript props object, as a partial map from keys to values. -/
def PropMap : Type := String → Option PropVal

/-- The object literal `\x7b onLongPress: () => \x7b\x7d, ...rest, ref: this._setChildrenRef \x7d`:
`ref` is set last (overriding any `ref` in `rest`), keys of `rest` override
the initial `onLongPress` entry, and every other key falls back to the
initial `onLongPress: () => \x7b\x7d` entry when the key is `onLongPress`. -/
def cloneElementConfig (rest : PropMap) : PropMap := fun k =>
  if k = "ref" then some PropVal.refCallback
  else
    match rest k with
    | some v => some v
    | none => if k = "onLongPress" then some PropVal.noopFn else none

/-- `React.cloneElement(element, config)`: the resulting element's props are
the original props overridden by the config's keys.  (React extracts the
`ref` entry into the element ref; that does not affect any other key.) -/
def cloneElementProps (childProps config : PropMap) : PropMap := fun k =>
  match config k with
  | some v => some v
  | none => childProps k

/-- The props the wrapped child finally receives from `render`, given its
original props and the `rest` of the wrapper's props. -/
def renderChildProps (childProps rest : PropMap) : PropMap :=
  cloneElementProps childProps (cloneElementConfig rest)

/-- An empty props object. -/
def emptyProps : PropMap := fun _ => none

/-- A `rest` bag in which the consumer passed an `onLongPress` of their own
(consumer function number 7). -/
def restWithLongPress : PropMap := fun k =>
  if k = "onLongPress" then some (PropVal.fn 7) else none

/-- Original props of a wrapped child that has its own `onLongPress`
handler (consumer function number 3). -/
def childPropsWithLongPress : PropMap := fun k =>
  if k = "onLongPress" then some (PropVal.fn 3) else none

/-! ### Component state and the timer-driven visibility machine

Mirror of the component's `state` object plus the runtime context the
lifecycle and touch handlers manipulate: the pending `setTimeout` timers,
the stored `_longPressTimeout` handle, the current time, the mounted flag
and the dimension-change listener registration.  Time is a natural number
of milliseconds.  React's behaviour for `setState` on an unmounted
component (the update is dropped with a warning) is modelled by counting
such stale calls in `staleUpdates` instead of mutating `comp`. -/

/-- Mirror of the component's `state` (source lines 89-103). -/
structure CState where
  childrenLayout : ChildrenLayout
  tooltipLayout : TooltipLayout
  tooltipVisible : Bool
  tooltipOpacity : ℚ
  tooltipMeasured : Bool
  deriving Repr, DecidableEq

/-- The initial component state (source lines 89-103). -/
def initState : CState where
  childrenLayout := ⟨0, 0, 0, 0⟩
  tooltipLayout := ⟨0, 0⟩
  tooltipVisible := false
  tooltipOpacity := 0
  tooltipMeasured := false

/-- Source `_handleTooltipLayout` as a pure function on the component state:
if `tooltipMeasured` is still false, store the layout size, set opacity to
`0.9` and set the measured flag; otherwise do nothing. -/
def handleTooltipLayout (c : CState) (w h : ℚ) : CState :=
  if c.tooltipMeasured then c
  else
    { c with
      tooltipLayout := ⟨w, h⟩
      tooltipOpacity := (9 : ℚ) / 10
      tooltipMeasured := true }

/-- A callback closed over by a `setTimeout` call in the source:
`showCb` from `_handleTouchStart` (runs `this._showTooltip()`);
`hideCb` from `_handleTouchEndCapture`, which closes over the value of
`this.state.tooltipVisible` read at scheduling time and runs
`tooltipVisible && this._hideTooltip()`;
`measureCb` from `_setChildrenPosition`, which stores the rectangle that
`UIManager.measure` reports for the child. -/
inductive Callback where
  | showCb : Callback
  | hideCb : Bool → Callback
  | measureCb : ChildrenLayout → Callback
  deriving Repr, DecidableEq

/-- A pending `setTimeout` timer: its handle, its due time, its callback. -/
structure Timer where
  id : ℕ
  fireAt : ℕ
  cb : Callback
  deriving Repr, DecidableEq

/-- The component instance plus its JavaScript runtime context. -/
structure Sys where
  comp : CState
  timers : List Timer
  longPressTimeout : Option ℕ
  nextId : ℕ
  now : ℕ
  mounted : Bool
  dimListener : Bool
  staleUpdates : ℕ
  deriving Repr, DecidableEq

/-- A freshly constructed, mounted component before `componentDidMount`
has run: initial state, no pending timers, no stored handle. -/
def initSys : Sys where
  comp := initState
  timers := []
  longPressTimeout := none
  nextId := 0
  now := 0
  mounted := true
  dimListener := false
  staleUpdates := 0

/-- `this.setState(f)`: mutates the component state while mounted; after
unmount React drops the update (counted in `staleUpdates`). -/
def setState (s : Sys) (f : CState → CState) : Sys :=
  if s.mounted then { s with comp := f s.comp }
  else { s with staleUpdates := s.staleUpdates + 1 }

/-- Source `_showTooltip()`: `this.setState(\x7b tooltipVisible: true \x7d)`. -/
def showTooltip (s : Sys) : Sys :=
  setState s fun c => { c with tooltipVisible := true }

/-- Source `_hideTooltip()`: `this.setState(\x7b tooltipVisible: false \x7d)`. -/
def hideTooltip (s : Sys) : Sys :=
  setState s fun c => { c with tooltipVisible := false }

/-- Source `_clearTimeouts()`: `clearTimeout(this._longPressTimeout)`.
If a handle is stored, the timer with that handle (if still pending) is
removed; the stored handle itself is not reset. -/
def clearTimeouts (s : Sys) : Sys :=
  match s.longPressTimeout with
  | none => s
  | some i => { s with timers := s.timers.filter fun tm => tm.id ≠ i }

/-- Source `_handleTouchStart`: schedules `showCb` after `delayLongPress`
milliseconds and stores the new handle.  It does not clear the previous
timer. -/
def handleTouchStart (delayLongPress : ℕ) (s : Sys) : Sys :=
  { s with
    timers := s.timers ++ [⟨s.nextId, s.now + delayLongPress, Callback.showCb⟩]
    longPressTimeout := some s.nextId
    nextId := s.nextId + 1 }

/-- Source `_handleTouchEndCapture`: reads `tooltipVisible` (closed over by
the callback), runs `_clearTimeouts()`, then schedules `hideCb` after
`delayLongPress` milliseconds and stores the new handle. -/
def handleTouchEndCapture (delayLongPress : ℕ) (s : Sys) : Sys :=
  let captured := s.comp.tooltipVisible
  let s1 := clearTimeouts s
  { s1 with
    timers := s1.timers ++ [⟨s1.nextId, s1.now + delayLongPress, Callback.hideCb captured⟩]
    longPressTimeout := some s1.nextId
    nextId := s1.nextId + 1 }

/-- Source `_handleTouchCancel`: `_clearTimeouts()` then `_hideTooltip()`. -/
def handleTouchCancel (s : Sys) : Sys :=
  hideTooltip (clearTimeouts s)

/-- Source `_setChildrenPosition` on the successful path (child ref set and
native handle resolved): `setTimeout(..., 500)` whose callback calls
`UIManager.measure` and stores the measured rectangle `m` via `setState`.
The timeout handle is not stored anywhere. -/
def setChildrenPosition (m : ChildrenLayout) (s : Sys) : Sys :=
  { s with
    timers := s.timers ++ [⟨s.nextId, s.now + 500, Callback.measureCb m⟩]
    nextId := s.nextId + 1 }

/-- Source `componentDidMount`: registers the dimension-change listener and
triggers an initial `_setChildrenPosition` (whose measurement will report
the rectangle `m`). -/
def componentDidMount (m : ChildrenLayout) (s : Sys) : Sys :=
  setChildrenPosition m { s with dimListener := true }

/-- Source `componentWillUnmount`: deregisters the dimension-change
listener and runs `_clearTimeouts()`; afterwards the component is
unmounted. -/
def componentWillUnmount (s : Sys) : Sys :=
  let s1 := clearTimeouts { s with dimListener := false }
  { s1 with mounted := false }

/-- Run one fired timer callback. -/
def runCallback (cb : Callback) (s : Sys) : Sys :=
  match cb with
  | Callback.showCb => showTooltip s
  | Callback.hideCb captured => if captured then hideTooltip s else s
  | Callback.measureCb m => setState s fun c => { c with childrenLayout := m }

/-- The earliest pending timer due at or before time `t` (ties between equal
due times resolved by scheduling order, which is list order). -/
def firstDue (t : ℕ) : List Timer → Option Timer
  | [] => none
  | tm :: rest =>
    match firstDue t rest with
    | none => if tm.fireAt ≤ t then some tm else none
    | some tm2 => if tm.fireAt ≤ t then (if tm.fireAt ≤ tm2.fireAt then some tm else some tm2)
                  else some tm2

/-- Fire all timers due at or before `t`, earliest first.  No callback in
this component schedules a new timer, so the number of pending timers is
strictly decreasing and serves as fuel. -/
def advanceAux : ℕ → ℕ → Sys → Sys
  | 0, _, s => s
  | fuel + 1, t, s =>
    match firstDue t s.timers with
    | none => s
    | some tm =>
      advanceAux fuel t
        (runCallback tm.cb
          { s with timers := s.timers.filter (fun tm2 => tm2.id ≠ tm.id), now := tm.fireAt })

/-- Let wall-clock time advance to `t`: fire every due timer, then set the
clock. -/
def advance (t : ℕ) (s : Sys) : Sys :=
  { advanceAux s.timers.length t s with now := t }

/-- An externally observable event delivered to the component: the three
touch events wired up in `render`, a dimension-change notification carrying
the rectangle the subsequent re-measurement reports, unmounting, and the
passage of time. -/
inductive Event where
  | touchStart : Event
  | touchEndCapture : Event
  | touchCancel : Event
  | dimensionChange : ChildrenLayout → Event
  | unmount : Event
  | advanceTo : ℕ → Event
  deriving Repr, DecidableEq

/-- One event step.  `delayLongPress` is the wrapper prop (default 500). -/
def step (delayLongPress : ℕ) (s : Sys) : Event → Sys
  | Event.touchStart => handleTouchStart delayLongPress s
  | Event.touchEndCapture => handleTouchEndCapture delayLongPress s
  | Event.touchCancel => handleTouchCancel s
  | Event.dimensionChange m => if s.dimListener then setChildrenPosition m s else s
  | Event.unmount => componentWillUnmount s
  | Event.advanceTo t => advance t s

/-- Run a list of events. -/
def run (delayLongPress : ℕ) (s : Sys) (es : List Event) : Sys :=
  es.foldl (step delayLongPress) s

/-! ### Claims about the position calculator -/

/-- Claim C4 is false as stated: the computed position does not always keep
the tooltip inside the viewport.  Concrete input: child at `x = 50`,
`width = 0`, tooltip `width = 300`, viewport width `320`.  The centered
value is `-100`, `_overflowRight` is false (`-100 + 300 = 200 ≤ 320`),
`_overflowLeft` is true, so the position is `childX = 50` and the tooltip's
right edge sits at `50 + 300 = 350 > 320`, overflowing the viewport. -/
theorem claim_C4_counterexample :
    getTooltipXPosition ⟨50, 0, 0, 0⟩ ⟨300, 40⟩ 320 = 50 ∧
    (320 : ℚ) < getTooltipXPosition ⟨50, 0, 0, 0⟩ ⟨300, 40⟩ 320 + 300 := by
  norm_num [getTooltipXPosition, overflowRight, overflowLeft]

/-- Claim C4 (amended): the tooltip lies entirely inside the viewport
whenever the centered horizontal position is itself in bounds (nonnegative
and not pushing the right edge past the viewport), the child's top is
nonnegative, the below-child placement fits the viewport bottom, and the
tooltip height is nonnegative and at most `childHeight + statusBarOffset`.
In general the computed position can overflow the viewport. -/
theorem claim_C4_amended (children : ChildrenLayout) (tooltip : TooltipLayout)
    (layoutWidth layoutHeight statusBarHeight : ℚ)
    (hcx : 0 ≤ children.x + (children.width - tooltip.width) / 2)
    (hcw : children.x + (children.width - tooltip.width) / 2 + tooltip.width ≤ layoutWidth)
    (hy : 0 ≤ children.y) (hth : 0 ≤ tooltip.height)
    (hb : children.y + children.height + tooltip.height + statusBarHeight ≤ layoutHeight)
    (hfit : tooltip.height ≤ children.height + statusBarHeight) :
    0 ≤ getTooltipXPosition children tooltip layoutWidth ∧
    getTooltipXPosition children tooltip layoutWidth + tooltip.width ≤ layoutWidth ∧
    0 ≤ getTooltipYPosition children tooltip statusBarHeight layoutHeight ∧
    getTooltipYPosition children tooltip statusBarHeight layoutHeight + tooltip.height ≤
      layoutHeight := by
  have hx : getTooltipXPosition children tooltip layoutWidth =
      children.x + (children.width - tooltip.width) / 2 := by
    simp [getTooltipXPosition, overflowRight, overflowLeft, not_lt.mpr hcw, not_lt.mpr hcx]
  have hypos : getTooltipYPosition children tooltip statusBarHeight layoutHeight =
      children.y + tooltip.height := by
    simp [getTooltipYPosition, overflowBottom, not_lt.mpr hb]
  rw [hx, hypos]
  exact ⟨hcx, hcw, by linarith, by linarith⟩

/-- Witness for the amended claim C4 at child `(50, 10, 100, 30)`, tooltip
`(60, 20)`, viewport `400 × 200`, status-bar offset `24`. -/
theorem claim_C4_amended_witness :
    0 ≤ getTooltipXPosition ⟨50, 10, 100, 30⟩ ⟨60, 20⟩ 400 ∧
    getTooltipXPosition ⟨50, 10, 100, 30⟩ ⟨60, 20⟩ 400 + 60 ≤ 400 ∧
    0 ≤ getTooltipYPosition ⟨50, 10, 100, 30⟩ ⟨60, 20⟩ 24 200 ∧
    getTooltipYPosition ⟨50, 10, 100, 30⟩ ⟨60, 20⟩ 24 200 + 20 ≤ 200 := by
  have h := claim_C4_amended ⟨50, 10, 100, 30⟩ ⟨60, 20⟩ 400 200 24
    (by norm_num) (by norm_num) (by norm_num) (by norm_num) (by norm_num) (by norm_num)
  exact h

/-- Claim C5 is false on its concrete scenario: for child at `x = 150`,
`width = 100`, tooltip width `300`, viewport width `400`, the centered value
is `150 + (100 - 300)/2 = 50` (not 100, and its right edge is 350, not
400), and the computed position is `50`, not `100` as the claim states. -/
theorem claim_C5_counterexample :
    getTooltipXPosition ⟨150, 0, 100, 0⟩ ⟨300, 0⟩ 400 = 50 ∧
    getTooltipXPosition ⟨150, 0, 100, 0⟩ ⟨300, 0⟩ 400 ≠ 100 := by
  norm_num [getTooltipXPosition, overflowRight, overflowLeft]

/-- Claim C5 (amended): the horizontal position equals
`childX + childWidth - tooltipWidth` when the centered value plus
`tooltipWidth` exceeds the viewport width; otherwise `childX` when the
centered value is negative; otherwise the centered value.  In the scenario
child `x = 150`, `width = 100`, tooltip width `300`, viewport width `400`,
the centered value is `50`, its right edge `350 ≤ 400` is no right
overflow, `50` is not negative, and the position is `50`. -/
theorem claim_C5_amended (children : ChildrenLayout) (tooltip : TooltipLayout)
    (layoutWidth : ℚ) :
    (layoutWidth < children.x + (children.width - tooltip.width) / 2 + tooltip.width →
      getTooltipXPosition children tooltip layoutWidth =
        children.x + children.width - tooltip.width) ∧
    (children.x + (children.width - tooltip.width) / 2 + tooltip.width ≤ layoutWidth →
      children.x + (children.width - tooltip.width) / 2 < 0 →
      getTooltipXPosition children tooltip layoutWidth = children.x) ∧
    (children.x + (children.width - tooltip.width) / 2 + tooltip.width ≤ layoutWidth →
      0 ≤ children.x + (children.width - tooltip.width) / 2 →
      getTooltipXPosition children tooltip layoutWidth =
        children.x + (children.width - tooltip.width) / 2) ∧
    getTooltipXPosition ⟨150, 0, 100, 0⟩ ⟨300, 0⟩ 400 = 50 := by
  refine ⟨fun h1 => ?_, fun h1 h2 => ?_, fun h1 h2 => ?_,
    by norm_num [getTooltipXPosition, overflowRight, overflowLeft]⟩
  · simp [getTooltipXPosition, overflowRight, overflowLeft, h1]
  · simp [getTooltipXPosition, overflowRight, overflowLeft, not_lt.mpr h1, h2]
  · simp [getTooltipXPosition, overflowRight, overflowLeft, not_lt.mpr h1, not_lt.mpr h2]

/-- Witness for the amended claim C5: each of the three cases discharged at
a concrete input (right-overflow at child `(350, 0, 50, 0)`, tooltip width
`300`, viewport `400`; left clamp at child `(10, 0, 20, 0)`; centered at
child `(150, 0, 100, 0)`). -/
theorem claim_C5_amended_witness :
    getTooltipXPosition ⟨350, 0, 50, 0⟩ ⟨300, 0⟩ 400 = 100 ∧
    getTooltipXPosition ⟨10, 0, 20, 0⟩ ⟨300, 0⟩ 400 = 10 ∧
    getTooltipXPosition ⟨150, 0, 100, 0⟩ ⟨300, 0⟩ 400 = 50 := by
  refine ⟨?_, ?_, (claim_C5_amended ⟨150, 0, 100, 0⟩ ⟨300, 0⟩ 400).2.2.2⟩
  · have h := (claim_C5_amended ⟨350, 0, 50, 0⟩ ⟨300, 0⟩ 400).1 (by norm_num)
    norm_num at h
    exact h
  · have h := (claim_C5_amended ⟨10, 0, 20, 0⟩ ⟨300, 0⟩ 400).2.1 (by norm_num) (by norm_num)
    exact h

/-- Claim C6 is false as stated: with child at `(0, 0, 0, 0)`, tooltip
width `1000` and viewport width `400`, the centered value `-500` is
negative, yet the position is not `childX = 0`: `_overflowRight` is checked
first and `-500 + 1000 = 500 > 400`, so the position is
`childX + childWidth - tooltipWidth = -1000`. -/
theorem claim_C6_counterexample :
    (0 : ℚ) + ((0 : ℚ) - 1000) / 2 < 0 ∧
    getTooltipXPosition ⟨0, 0, 0, 0⟩ ⟨1000, 0⟩ 400 = -1000 ∧
    getTooltipXPosition ⟨0, 0, 0, 0⟩ ⟨1000, 0⟩ 400 ≠ 0 := by
  norm_num [getTooltipXPosition, overflowRight, overflowLeft]

/-- Claim C6 (amended): when the centered value is negative AND the right
overflow check fails (centered value plus tooltip width at most the
viewport width — the source tests `_overflowRight` first), the horizontal
position equals `childX`.  Scenario: child at `x = 10`, `width = 20`,
tooltip width `300`, viewport width `400` gives centered value `-130` and
position `10`. -/
theorem claim_C6_amended (children : ChildrenLayout) (tooltip : TooltipLayout)
    (layoutWidth : ℚ) :
    (children.x + (children.width - tooltip.width) / 2 < 0 →
      children.x + (children.width - tooltip.width) / 2 + tooltip.width ≤ layoutWidth →
      getTooltipXPosition children tooltip layoutWidth = children.x) ∧
    getTooltipXPosition ⟨10, 0, 20, 0⟩ ⟨300, 0⟩ 400 = 10 := by
  refine ⟨fun h1 h2 => ?_, by norm_num [getTooltipXPosition, overflowRight, overflowLeft]⟩
  simp [getTooltipXPosition, overflowRight, overflowLeft, not_lt.mpr h2, h1]

/-- Witness for the amended claim C6 at the scenario input. -/
theorem claim_C6_amended_witness :
    getTooltipXPosition ⟨10, 0, 20, 0⟩ ⟨300, 0⟩ 400 = 10 := by
  exact (claim_C6_amended ⟨10, 0, 20, 0⟩ ⟨300, 0⟩ 400).1 (by norm_num) (by norm_num)

/-- Claim C7: if `childY + childHeight + tooltipHeight + statusBarOffset`
is at most the viewport height, the vertical position is the below-child
default `childY + tooltipHeight` (bug-compatible: the source adds
`tooltipHeight`, not `childHeight`); otherwise it is the flipped value
`childY - tooltipHeight - topMargin - statusBarOffset` with top margin
`24`. -/
theorem claim_C7 (children : ChildrenLayout) (tooltip : TooltipLayout)
    (statusBarHeight layoutHeight : ℚ) :
    (children.y + children.height + tooltip.height + statusBarHeight ≤ layoutHeight →
      getTooltipYPosition children tooltip statusBarHeight layoutHeight =
        children.y + tooltip.height) ∧
    (layoutHeight < children.y + children.height + tooltip.height + statusBarHeight →
      getTooltipYPosition children tooltip statusBarHeight layoutHeight =
        children.y - tooltip.height - tooltipMarginTop - statusBarHeight) ∧
    tooltipMarginTop = 24 := by
  refine ⟨fun h => ?_, fun h => ?_, rfl⟩
  · simp [getTooltipYPosition, overflowBottom, not_lt.mpr h]
  · simp [getTooltipYPosition, overflowBottom, h]

/-- Witness for claim C7: both branches at concrete inputs (child
`(0, 10, 5, 5)`, tooltip `(10, 10)`, status bar `24`; viewport heights
`100` for the below case and `40` for the flipped case). -/
theorem claim_C7_witness :
    getTooltipYPosition ⟨0, 10, 5, 5⟩ ⟨10, 10⟩ 24 100 = 20 ∧
    getTooltipYPosition ⟨0, 10, 5, 5⟩ ⟨10, 10⟩ 24 40 = -48 := by
  constructor
  · have h := (claim_C7 ⟨0, 10, 5, 5⟩ ⟨10, 10⟩ 24 100).1 (by norm_num)
    rw [h]; norm_num
  · have h := (claim_C7 ⟨0, 10, 5, 5⟩ ⟨10, 10⟩ 24 40).2.1 (by norm_num)
    rw [h]; norm_num [tooltipMarginTop]

/-! ### Claims about prop forwarding and tooltip measurement -/

/-- Claim C3 is false as stated: in the literal
`\x7b onLongPress: () => \x7b\x7d, ...rest, ref \x7d` the spread of `rest` comes after
the no-op entry, so a consumer-passed `onLongPress` among the forwarded
extra props overrides the no-op.  Concretely, with `rest` carrying
`onLongPress = fn 7`, the child finally receives `fn 7`, not the no-op. -/
theorem claim_C3_counterexample :
    renderChildProps childPropsWithLongPress restWithLongPress "onLongPress" =
      some (PropVal.fn 7) ∧
    renderChildProps childPropsWithLongPress restWithLongPress "onLongPress" ≠
      some PropVal.noopFn := by
  constructor
  · rfl
  · decide

/-- Claim C3 (amended): whenever the forwarded extra props do not
themselves contain an `onLongPress` entry, the child's final `onLongPress`
is the no-op — in particular the child element's own handler is always
overridden. -/
theorem claim_C3_amended (childProps rest : PropMap) (h : rest "onLongPress" = none) :
    renderChildProps childProps rest "onLongPress" = some PropVal.noopFn := by
  simp [renderChildProps, cloneElementProps, cloneElementConfig, h]

/-- Witness for the amended claim C3: a child carrying its own
`onLongPress` handler, no extra props. -/
theorem claim_C3_amended_witness :
    renderChildProps childPropsWithLongPress emptyProps "onLongPress" =
      some PropVal.noopFn :=
  claim_C3_amended childPropsWithLongPress emptyProps rfl

/-- Claim C10: only the first tooltip layout event changes state.  From an
unmeasured state, a layout event stores the size, sets opacity to `0.9` and
sets the measured flag while leaving every other field unchanged; from a
measured state a layout event is the identity; hence any second layout
event leaves the entire state unchanged. -/
theorem claim_C10 (c : CState) (w h w2 h2 : ℚ) :
    (c.tooltipMeasured = false →
      handleTooltipLayout c w h =
        { c with
          tooltipLayout := ⟨w, h⟩
          tooltipOpacity := (9 : ℚ) / 10
          tooltipMeasured := true }) ∧
    (c.tooltipMeasured = true → handleTooltipLayout c w h = c) ∧
    handleTooltipLayout (handleTooltipLayout c w h) w2 h2 = handleTooltipLayout c w h := by
  unfold handleTooltipLayout
  rcases hm : c.tooltipMeasured <;> simp [hm]

/-- Witness for claim C10: first layout on the initial (unmeasured) state
at size `30 × 20`. -/
theorem claim_C10_witness :
    handleTooltipLayout initState 30 20 =
      { initState with
        tooltipLayout := ⟨30, 20⟩
        tooltipOpacity := (9 : ℚ) / 10
        tooltipMeasured := true } :=
  (claim_C10 initState 30 20 0 0).1 rfl

/-! ### Claims about timers, unmount and the touch state machine -/

/-- Claim C1 fails on the code: `componentWillUnmount` clears only the
stored `_longPressTimeout` handle, but the 500 ms child-measurement
`setTimeout` created by `_setChildrenPosition` is never stored, so it is
still pending after unmount and its callback then invokes `setState` on the
unmounted component.  Concretely: mount (which schedules the measurement
timer), unmount immediately, let 500 ms pass — one timer is still pending
at unmount and exactly one stale state update is attempted afterwards. -/
theorem claim_C1_bug :
    (run 500 (componentDidMount ⟨5, 6, 7, 8⟩ initSys) [Event.unmount]).timers.length = 1 ∧
    (run 500 (componentDidMount ⟨5, 6, 7, 8⟩ initSys) [Event.unmount]).mounted = false ∧
    (run 500 (componentDidMount ⟨5, 6, 7, 8⟩ initSys)
        [Event.unmount, Event.advanceTo 500]).staleUpdates = 1 :=
  ⟨rfl, rfl, rfl⟩

/-- Claim C2 is false as stated: `_handleTouchStart` does not cancel the
previously scheduled timer — it only overwrites the stored handle.  After
two touch starts from the initial state, two show timers (handles 0 and 1)
are pending at once. -/
theorem claim_C2_counterexample :
    (run 500 initSys [Event.touchStart, Event.touchStart]).timers.map Timer.id = [0, 1] ∧
    (run 500 initSys [Event.touchStart, Event.touchStart]).timers.length = 2 :=
  ⟨rfl, rfl⟩

/-- Claim C2 (amended): only touch end capture and touch cancel cancel the
previously scheduled timer — each removes the timer whose handle is stored
in `_longPressTimeout` before proceeding.  Touch start schedules a new
timer without cancelling, so more than one show/hide timer can be pending
and an earlier-scheduled timer can still fire.  (The hypothesis
`i < s.nextId` holds for every stored handle, since handles are allocated
from the counter.) -/
theorem claim_C2_amended (delayLongPress : ℕ) (s : Sys) (i : ℕ)
    (hstored : s.longPressTimeout = some i) (hlt : i < s.nextId) :
    (∀ tm ∈ (handleTouchEndCapture delayLongPress s).timers, tm.id ≠ i) ∧
    (∀ tm ∈ (handleTouchCancel s).timers, tm.id ≠ i) := by
  constructor
  · intro tm htm
    simp [handleTouchEndCapture, clearTimeouts, hstored, List.mem_filter] at htm
    rcases htm with ⟨_, hne⟩ | heq
    · exact hne
    · rw [heq]
      exact Nat.ne_of_gt hlt
  · intro tm htm
    have htimers : (handleTouchCancel s).timers = s.timers.filter fun tm => tm.id ≠ i := by
      unfold handleTouchCancel hideTooltip setState clearTimeouts
      rw [hstored]
      split <;> rfl
    rw [htimers] at htm
    simp [List.mem_filter] at htm
    exact htm.2

/-- Witness for the amended claim C2: a state with one pending show timer
(handle 0) stored; touch end capture and touch cancel both leave no pending
timer with handle 0. -/
theorem claim_C2_amended_witness :
    (∀ tm ∈ (handleTouchEndCapture 500 (handleTouchStart 500 initSys)).timers, tm.id ≠ 0) ∧
    (∀ tm ∈ (handleTouchCancel (handleTouchStart 500 initSys)).timers, tm.id ≠ 0) :=
  claim_C2_amended 500 (handleTouchStart 500 initSys) 0 rfl (by decide)

/-- Claim C8: touch start, wait past `delayLongPress`, touch end capture,
wait past `delayLongPress` again — the tooltip becomes visible after the
first wait and hidden again after the second.  Stated for any mounted state
with no pending timers (time is first advanced to `t0`; the waits satisfy
`t0 + d < t1` and `t1 + d < t2`). -/
theorem claim_C8 (d t0 t1 t2 : ℕ) (s : Sys)
    (hT : s.timers = []) (hM : s.mounted = true)
    (hw1 : t0 + d < t1) (hw2 : t1 + d < t2) :
    (run d s [Event.advanceTo t0, Event.touchStart,
        Event.advanceTo t1]).comp.tooltipVisible = true ∧
    (run d s [Event.advanceTo t0, Event.touchStart, Event.advanceTo t1,
        Event.touchEndCapture, Event.advanceTo t2]).comp.tooltipVisible = false := by
  obtain ⟨c, tms, lpt, nid, nw, mtd, dml, stl⟩ := s
  obtain ⟨cl, tl, vis, op, meas⟩ := c
  simp only at hT hM
  subst hT hM
  have hd1 : t0 + d ≤ t1 := Nat.le_of_lt hw1
  have hd2 : t1 + d ≤ t2 := Nat.le_of_lt hw2
  constructor
  · simp [run, step, advance, advanceAux, firstDue, handleTouchStart, runCallback,
      showTooltip, setState, hd1]
  · simp [run, step, advance, advanceAux, firstDue, handleTouchStart,
      handleTouchEndCapture, clearTimeouts, runCallback, showTooltip, hideTooltip,
      setState, hd1, hd2]

/-- Witness for claim C8 with the default 500 ms delay: waits to 501 ms and
1002 ms from the initial mounted state. -/
theorem claim_C8_witness :
    (run 500 initSys [Event.advanceTo 0, Event.touchStart,
        Event.advanceTo 501]).comp.tooltipVisible = true ∧
    (run 500 initSys [Event.advanceTo 0, Event.touchStart, Event.advanceTo 501,
        Event.touchEndCapture, Event.advanceTo 1002]).comp.tooltipVisible = false :=
  claim_C8 500 0 501 1002 initSys rfl rfl (by decide) (by decide)

/-- Claim C9: touch start followed by touch cancel before `delayLongPress`
has elapsed — the tooltip is hidden at every step of the trace, the cancel
removes the pending show timer (no timer remains), and the tooltip stays
hidden forever after.  Stated for any mounted, hidden state with no pending
timers; time is first advanced to `t0`, the cancel happens at `t1` with
`t1 < t0 + d`, and `t2` is arbitrary. -/
theorem claim_C9 (d t0 t1 t2 : ℕ) (s : Sys)
    (hT : s.timers = []) (hV : s.comp.tooltipVisible = false) (hM : s.mounted = true)
    (hc : t1 < t0 + d) :
    (run d s [Event.advanceTo t0, Event.touchStart,
        Event.advanceTo t1]).comp.tooltipVisible = false ∧
    (run d s [Event.advanceTo t0, Event.touchStart, Event.advanceTo t1,
        Event.touchCancel]).comp.tooltipVisible = false ∧
    (run d s [Event.advanceTo t0, Event.touchStart, Event.advanceTo t1,
        Event.touchCancel]).timers = [] ∧
    (run d s [Event.advanceTo t0, Event.touchStart, Event.advanceTo t1,
        Event.touchCancel, Event.advanceTo t2]).comp.tooltipVisible = false := by
  obtain ⟨c, tms, lpt, nid, nw, mtd, dml, stl⟩ := s
  obtain ⟨cl, tl, vis, op, meas⟩ := c
  simp only at hT hV hM
  subst hT hV hM
  have hnd : ¬ (t0 + d ≤ t1) := by omega
  refine ⟨?_, ?_, ?_, ?_⟩ <;>
    simp [run, step, advance, advanceAux, firstDue, handleTouchStart, handleTouchCancel,
      clearTimeouts, runCallback, hideTooltip, setState, hnd]

/-- Witness for claim C9 with the default 500 ms delay: touch start at 0 ms,
cancel at 499 ms, observed again at 1000 ms, from the initial state. -/
theorem claim_C9_witness :
    (run 500 initSys [Event.advanceTo 0, Event.touchStart,
        Event.advanceTo 499]).comp.tooltipVisible = false ∧
    (run 500 initSys [Event.advanceTo 0, Event.touchStart, Event.advanceTo 499,
        Event.touchCancel]).comp.tooltipVisible = false ∧
    (run 500 initSys [Event.advanceTo 0, Event.touchStart, Event.advanceTo 499,
        Event.touchCancel]).timers = [] ∧
    (run 500 initSys [Event.advanceTo 0, Event.touchStart, Event.advanceTo 499,
        Event.touchCancel, Event.advanceTo 1000]).comp.tooltipVisible = false :=
  claim_C9 500 0 499 1000 initSys rfl rfl rfl (by decide)

end TooltipModel
